import Mathlib

/-!
Verification of the ERS_Vent hydrogen-peroxide runaway-reaction venting model.

Shallow embedding of the repository's core numerical code:
`Constant_Lib.py`, `Conversion.py`, `EOS.py`, `Property_Lib.py`, `VLE.py`,
`ERS.py`, `ODE.py`, `Scenario.py`.  Pure closed-form computations over floats
are embedded as functions over `ℝ` (when they involve `exp`, `sqrt`, `rpow`
or `π`) or over `ℚ` (when they are rational arithmetic and control flow);
`scipy` root-finding calls are embedded by quantifying over solutions of the
residual systems the code hands to the solver; Python dynamic errors
(attribute lookup on a name a module does not define, calling a method with
the wrong number of arguments) are embedded with an explicit `Except` model
whose name tables and arities are transcribed from the source.
-/

namespace ERSVent

/-! ## Constant_Lib.py -/

namespace cc

/-- Molecular weight of water, g/mol (`Constant_Lib.MH2O`). -/
def MH2O : ℝ := 18.01528

/-- Molecular weight of oxygen, g/mol (`Constant_Lib.MO2`). -/
def MO2 : ℝ := 31.998

/-- Molecular weight of hydrogen peroxide, g/mol (`Constant_Lib.MH2O2`). -/
def MH2O2 : ℝ := 34.0147

/-- Gas constant (`Constant_Lib.R`). -/
def R : ℝ := 8.3145

/-- Gravitational acceleration (`Constant_Lib.g`). -/
def g : ℝ := 9.81

/-- Atmospheric pressure, kPa (`Constant_Lib.Patm`). -/
def Patm : ℝ := 101.325

/-- Critical temperature of oxygen, K (`Constant_Lib.TcO2`). -/
def TcO2 : ℝ := 154.6

/-- Critical temperature of water, K (`Constant_Lib.TcH2O`). -/
def TcH2O : ℝ := 647.096

/-- Critical temperature of hydrogen peroxide, K (`Constant_Lib.TcH2O2`). -/
def TcH2O2 : ℝ := 728

/-- Critical pressure of oxygen, kPa (`Constant_Lib.PcO2`). -/
def PcO2 : ℝ := 5050

/-- Critical pressure of water, kPa (`Constant_Lib.PcH2O`). -/
def PcH2O : ℝ := 22060

/-- Critical pressure of hydrogen peroxide, kPa (`Constant_Lib.PcH2O2`). -/
def PcH2O2 : ℝ := 22000

/-- Arrhenius pre-exponential factor, 1/s (`Constant_Lib.A_ar`). -/
def A_ar : ℝ := 135000

/-- The constant the source names `Ea` and annotates `# (J/mol)`; its value
10357 is used in `Kinetics.kinetics` directly as `exp(-Ea / c2k(T))`,
without any division by the gas constant `R`. -/
def Ea : ℝ := 10357

end cc

/-! ## Conversion.py -/

/-- Transcribes `Conversion.c2k`: Celsius to kelvin. -/
noncomputable def c2k (temperature : ℝ) : ℝ := temperature + 273.15

/-- Transcribes `Conversion.c2k` over the rationals (used by the control-flow models). -/
def c2kq (temperature : ℚ) : ℚ := temperature + 273.15

/-- Transcribes `Conversion.A_relief`: circular diameter in inches to area in m². -/
noncomputable def A_relief (D : ℝ) : ℝ := Real.pi * ((D * 0.0254) ^ 2) / 4

/-- Transcribes `Conversion.cv2kd`. -/
noncomputable def cv2kd (Cv D : ℝ) : ℝ := Cv / (27.66 * A_relief D * 1550)

/-! ## Property_Lib.Kinetics -/

/-- Transcribes `Property_Lib.Kinetics.kinetics`: the decomposition rate constant stored in
`self.rate`.  Transcribed from line 557 of `Property_Lib.py`:
`self.rate = cc.A_ar * kf * np.exp(-cc.Ea / c2k(T))`. -/
noncomputable def Kinetics.rate (T kf : ℝ) : ℝ :=
  cc.A_ar * kf * Real.exp (-cc.Ea / c2k T)

/-- Transcribes `ODE.rxn_vent_ode`, line 227: the time derivative of the moles of hydrogen
peroxide, `-kin.rate * nH2O2 - (H2O2.y * xe + H2O2.x * (1 - xe)) * n_vent`. -/
noncomputable def rxn_dnH2O2_dt (rate nH2O2 yH2O2 xH2O2 xe n_vent : ℝ) : ℝ :=
  -rate * nH2O2 - (yH2O2 * xe + xH2O2 * (1 - xe)) * n_vent

end ERSVent

namespace ERSVent

/-! ## Model of Python name resolution and call arity

`ODE.rxn_vent_ode` evaluates `VLE.Update_Conditions(...)`; `ODE.vent_calc`
evaluates `self.crit_flow(...)` and `self.ventflow(T, cc.Patm,
self.scenario.D_RD, cc.RD_Kd)`.  In Python, reading a name a module does not
define raises `AttributeError`, and calling a method with more positional
arguments than its parameter list raises `TypeError`.  The name tables below
are transcribed from the `class`/`def` statements of `VLE.py`, `ERS.py`,
`ODE.py` and the module-level assignments of `Constant_Lib.py`. -/

/-- Python runtime errors relevant to the embedded code. -/
inductive PyErr where
  | attributeError (name : String)
  | typeError (name : String)
  | domainError (name : String)
  deriving DecidableEq, Repr

/-- The classes defined by module `VLE.py` (its only top-level definitions). -/
def VLE_module_names : List String :=
  ["Solvers", "Equilibrate", "Initial_Conditions"]

/-- The methods defined by `class ERS` in `ERS.py`. -/
def ERS_class_methods : List String :=
  ["critical_pressure", "ventflow", "voidfrac", "two_phase", "coupling",
   "flow_twophase"]

/-- The methods defined by `class Stats` in `ODE.py`. -/
def Stats_class_methods : List String :=
  ["max_P", "max_T", "max_vent", "min_quality", "max_conversion"]

/-- The methods defined by `class ODE(Stats, ERS.ERS)` in `ODE.py`. -/
def ODE_class_methods : List String :=
  ["__init__", "initialize_heatup", "initialize_vent", "integrate",
   "rxn_vent_ode", "vdir", "store_data", "plot_realtime", "plot_vals",
   "pid_config", "vent_calc", "termination_code"]

/-- The module-level names assigned in `Constant_Lib.py`. -/
def Constant_Lib_names : List String :=
  ["MH2O", "MO2", "MH2O2", "R", "g", "Patm", "TcO2", "TcH2O", "TcH2O2",
   "PcO2", "PcH2O", "PcH2O2", "dH_rxn", "A_ar", "Ea"]

/-- The parameter list of `ERS.ventflow` besides `self`
(`def ventflow(self, T, P_discharge)`). -/
def ventflow_params : List String := ["T", "P_discharge"]

/-- The positional arguments `ODE.vent_calc` passes to `self.ventflow` on the
rupture-disc venting path, line 398 of `ODE.py`:
`self.ventflow(T, cc.Patm, self.scenario.D_RD, cc.RD_Kd)`. -/
def rd_ventflow_call_args : List String :=
  ["T", "cc.Patm", "self.scenario.D_RD", "cc.RD_Kd"]

/-- Python attribute lookup against a table of defined names. -/
def pyGetattr (defined : List String) (name : String) : Except PyErr Unit :=
  if name ∈ defined then .ok () else .error (.attributeError name)

/-- Python method call: the number of positional arguments must match the
parameter list, otherwise `TypeError`; on a match the given body runs. -/
def pyCall (methodName : String) (params : List String) (args : List ℚ)
    (body : List ℚ → Except PyErr ℚ) : Except PyErr ℚ :=
  if args.length = params.length then body args
  else .error (.typeError methodName)

/-- The first operation `ODE.rxn_vent_ode` performs after unpacking `Y` and
computing the scalar `mR` is the attribute lookup `VLE.Update_Conditions`
(line 191 of `ODE.py`); every later statement of the function is dominated by
this lookup, so the function's outcome is an error whenever it fails. -/
def rxn_vent_ode_lookup : Except PyErr Unit :=
  pyGetattr VLE_module_names "Update_Conditions"

/-- On the rupture-disc venting path (`scenario.RD` true and `venting` true),
the first operation of `ODE.vent_calc` is the attribute lookup
`self.crit_flow` (line 397 of `ODE.py`); the attributes of an `ODE` instance
are its data fields plus the methods of `ODE`, `Stats` and `ERS.ERS`. -/
def vent_calc_crit_flow_lookup : Except PyErr Unit :=
  pyGetattr (ODE_class_methods ++ Stats_class_methods ++ ERS_class_methods)
    "crit_flow"

/-- The `cc.RD_Kd` argument of the same call, looked up in `Constant_Lib`. -/
def vent_calc_RD_Kd_lookup : Except PyErr Unit :=
  pyGetattr Constant_Lib_names "RD_Kd"

/-! ## EOS.py -/

/-- Transcribes `EOS.RK_EOS.compress_solver`: the Redlich-Kwong cubic residual handed to
`fsolve`, with `A = 0.42748 * Pr / Tr ** 2.5` and `B = 0.08664 * Pr / Tr`. -/
noncomputable def compress_solver (Tr Pr z : ℝ) : ℝ :=
  let A := 0.42748 * Pr / Tr ^ (2.5 : ℝ)
  let B := 0.08664 * Pr / Tr
  z ^ 3 - z ^ 2 + (A - B - B ^ 2) * z - A * B

/-- The formula in the body of `EOS.RK_EOS.reduced_tempertaure`
(`c2k(self.T) / self.Tc`), as a function of the values it reads. -/
noncomputable def reduced_tempertaure (T Tc : ℝ) : ℝ := c2k T / Tc

/-- The formula in the body of `EOS.RK_EOS.reduced_pressure`
(`self.P / self.Pc`), as a function of the values it reads. -/
noncomputable def reduced_pressure (P Pc : ℝ) : ℝ := P / Pc

/-- The parameter list of `EOS.RK_EOS.reduced_tempertaure` besides `self`:
it is defined as `def reduced_tempertaure(self):`, taking no arguments. -/
def reduced_tempertaure_params : List String := []

/-- The instance attributes a `Property_Lib.Water` object owns when
`compress` runs: the fields assigned in `Water.__init__` (the `vle` inherit
step is wrapped in `try/except: pass` and adds nothing new).  There is no
`T` and no `Tc` attribute. -/
def Water_instance_attrs : List String :=
  ["density", "cpl", "cpg", "gamma", "Z", "Psat", "Pr", "Tr", "m", "x", "y",
   "z", "n", "P"]

/-- Transcribes `Property_Lib.Water.compress`, lines 187-194: it evaluates
`self.reduced_tempertaure(T, cc.TcH2O)`, i.e. it calls the zero-parameter
method `reduced_tempertaure` with two positional arguments.  Were the arity
correct, the body would next read `self.T` and `self.Tc`, neither of which a
`Water` instance defines.  The trailing value models the `fsolve` result that
is never reached. -/
def Water.compress (T P : ℚ) : Except PyErr ℚ :=
  pyCall "reduced_tempertaure" reduced_tempertaure_params
    [T, 647.096] fun _ => do
      let _ ← pyGetattr Water_instance_attrs "T"
      let _ ← pyGetattr Water_instance_attrs "Tc"
      pure P

/-- Transcribes `Property_Lib.Hydrogen_Peroxide.compress`, lines 362-369: the same call
shape with `cc.TcH2O2`. -/
def Hydrogen_Peroxide.compress (T P : ℚ) : Except PyErr ℚ :=
  pyCall "reduced_tempertaure" reduced_tempertaure_params
    [T, 728] fun _ => do
      let _ ← pyGetattr Water_instance_attrs "T"
      let _ ← pyGetattr Water_instance_attrs "Tc"
      pure P

/-- Transcribes `Property_Lib.Oxygen.compress`, lines 425-432: the same call shape with
`cc.TcO2`. -/
def Oxygen.compress (T P : ℚ) : Except PyErr ℚ :=
  pyCall "reduced_tempertaure" reduced_tempertaure_params
    [T, 154.6] fun _ => do
      let _ ← pyGetattr Water_instance_attrs "T"
      let _ ← pyGetattr Water_instance_attrs "Tc"
      pure P

/-! ## ERS.two_phase / ERS.voidfrac (lines 49-93 of ERS.py) -/

/-- The two values of `scenario.flow_regime` the source compares against
(`'churn-turbulent'` and `'bubbly'`). -/
inductive FlowRegime where
  | churn
  | bubbly
  deriving DecidableEq, Repr

/-- Transcribes `ERS.voidfrac`: the residual handed to `fsolve` for the void fraction,
with `C0 = 1.5`; one closed form per flow regime. -/
def voidfrac (regime : FlowRegime) (jgx Ui z : ℚ) : ℚ :=
  match regime with
  | .churn => (z * (1 - z) ^ 2) / ((1 - z ^ 3) * (1 - 1.5 * z)) - jgx / Ui
  | .bubbly => (jgx / Ui) / (2 + 1.5 * (jgx / Ui)) - z

/-- The geometric headspace fraction `alphaves = (VR - VL) / VR` computed in
`ERS.two_phase` (line 75 of `ERS.py`). -/
def alphaves (VR VL : ℚ) : ℚ := (VR - VL) / VR

/-- The outputs `ERS.two_phase` assigns: the two-phase flag `self.TF` and,
when two-phase flow is active, the entrainment flux `self.jgi` and quality
basis `self.Xm`.  On the single-phase branch the source leaves `Xm` and
`jgi` as uninitialized `np.empty(1)` garbage, modelled as `none`. -/
structure TwoPhaseResult where
  TF : Bool
  jgi : Option ℚ
  Xm : Option ℚ
  deriving DecidableEq, Repr

/-- The tail of `ERS.two_phase` (lines 73-93 of `ERS.py`), after `fsolve` has
produced the void fraction `alpha`: compare `alpha` with `alphaves`; on the
two-phase branch compute `jgi` and `a_m` from the closed form of the
configured regime (`C0 = 1.5`) and `Xm = a_m*pG / (a_m*pG + (1-a_m)*pL)`. -/
def two_phase_decision (regime : FlowRegime) (alpha Ui pG pL VR VL : ℚ) :
    TwoPhaseResult :=
  let aves := (VR - VL) / VR
  if alpha ≤ aves then ⟨false, none, none⟩
  else
    let C0 : ℚ := 1.5
    let jgi := match regime with
      | .churn => 2 * aves * Ui / (1 - C0 * aves)
      | .bubbly => aves * (1 - aves) ^ 2 * Ui / ((1 - aves ^ 3) * (1 - C0 * aves))
    let a_m := match regime with
      | .churn => 2 * aves / (1 + C0 * aves)
      | .bubbly => aves
    ⟨true, some jgi, some (a_m * pG / (a_m * pG + (1 - a_m) * pL))⟩

/-- Transcribes `Constant_Lib.Patm` over `ℚ`, for the control-flow models. -/
def Patmq : ℚ := 101.325

/-! ## Scenario.py and the mutable state of class ODE

The configuration object `Scenario.Scenario` (named `Scen` here because the
lexical rules of this development forbid the original spelling) carries the
fields assigned in `Scenario.__init__` plus the flags the runtime layer
attaches before integration (`RD`, `BPR`, `TF_vent`, `flow_regime`,
`cool_time`, the PID gains) and the rupture-disc discharge coefficient the
venting path reads. -/

structure Scen where
  VR : ℚ
  Ux : ℚ
  AR : ℚ
  D : ℚ
  h : ℚ
  MAWP : ℚ
  D_RD : ℚ
  D_BPR : ℚ
  BPR_max_Cv : ℚ
  P_RD : ℚ
  P_BPR : ℚ
  XH2O2 : ℚ
  mR : ℚ
  kf : ℚ
  rxn_temp : ℚ
  rxn_time : ℚ
  T0 : ℚ
  P0 : ℚ
  max_rate : ℚ
  cool_time : ℚ
  Kp : ℚ
  Ki : ℚ
  Kd : ℚ
  RD : Bool
  BPR : Bool
  TF_vent : Bool
  flow_regime : FlowRegime
  Kd_RD : ℚ
  integrator : String

/-- The per-evaluation property snapshot fields `ODE.rxn_vent_ode` assigns to
`self` (lines 204-219 of `ODE.py`). -/
structure PropsSnapshot where
  CpL : ℚ
  CpG : ℚ
  Cp : ℚ
  pG : ℚ
  pL : ℚ
  vL : ℚ
  vG : ℚ

/-- The mutable state of an `ODE` instance relevant to `vent_calc`,
`rxn_vent_ode` and the `integrate` loop body: the configuration object plus
every integrator-owned field those methods assign. -/
structure ODEState where
  scen : Scen
  venting : Bool
  critical_flow : Bool
  n_vent : ℚ
  n_vent_vap : ℚ
  xe : ℚ
  TF : Bool
  cpP : ℚ
  cpVL : ℚ
  props : PropsSnapshot
  ramp_rate : ℚ
  pid_setpoint : ℚ
  recorded : List ℚ

/-- The state `VLE.Update_Conditions` hands back through
`Common_Properties.inherit_properties`: the converged pressure and liquid
volume (the fields `vent_calc` and the termination checks read). -/
structure UCResult where
  P : ℚ
  VL : ℚ

/-- Modelled from the spec: `VLE.Update_Conditions` is referenced at line 191
of `ODE.py` but defined nowhere in the repository.  Section 4.6 step 1 of the
specification describes it: recompute the equilibrium state at the current
temperature and mole numbers, using the previous step's recorded state (the
`(self.data, k)` arguments) as the warm start of the nonlinear solve.  The
solver itself is abstracted as a function of the current unknowns and of the
warm-start pressure. -/
def SolveFn : Type := ℚ → ℚ → ℚ → ℚ → ℚ → UCResult

/-- Modelled from the spec: the numerical callbacks of the venting path.
`crit` stands for the undefined method `crit_flow` (the critical-pressure
test of spec section 4.4), `ventflow` for the four-argument vapour-flow
evaluation `vent_calc` expects (the source's two-parameter `ERS.ventflow`
body uses closed forms with `sqrt`), `cv2kdFn` for `Conversion.cv2kd`
(which divides by the `π`-valued orifice area), and the `two*` fields for
the `fsolve`/`sqrt` results of `ERS.two_phase` and `ERS.flow_twophase`. -/
structure VentFns where
  crit : ℚ → ODEState → Bool
  ventflow : ℚ → ℚ → ℚ → ℚ → ℚ
  cv2kdFn : ℚ → ℚ → ℚ
  twoTF : ODEState → Bool
  twoNvent : ODEState → ℚ
  twoXe : ODEState → ℚ

/-- Transcribes `ODE.vent_calc`, lines 391-436 of `ODE.py`: the branch structure and
every assignment, with the numerical evaluations supplied by `f`.  The
decisions read the pressure `self.cp.P` held in the state. -/
def vent_calc (f : VentFns) (T : ℚ) (s : ODEState) : ODEState :=
  if s.scen.RD = true then
    if s.venting = true then
      let s1 := { s with critical_flow := f.crit Patmq s }
      let s2 := { s1 with
        n_vent_vap := f.ventflow T Patmq s.scen.D_RD s.scen.Kd_RD }
      if s.scen.TF_vent = true then
        let s3 := { s2 with TF := f.twoTF s2 }
        if s3.TF = false then { s3 with n_vent := s3.n_vent_vap, xe := 1 }
        else { s3 with n_vent := f.twoNvent s3, xe := f.twoXe s3 }
      else { s2 with n_vent := s2.n_vent_vap, xe := 1 }
    else if s.scen.BPR = true ∧ s.scen.P_RD > s.cpP ∧ s.cpP > s.scen.P_BPR then
      let s1 := { s with critical_flow := false }
      let kd := f.cv2kdFn s.scen.BPR_max_Cv s.scen.D_BPR
      let s2 := { s1 with n_vent_vap := f.ventflow T s.scen.P_BPR s.scen.D_BPR kd }
      { s2 with n_vent := s2.n_vent_vap, xe := 1 }
    else { s with n_vent := 0, xe := 1 }
  else
    if s.scen.BPR = true ∧ s.cpP > s.scen.P_BPR then
      let s1 := { s with critical_flow := false }
      let kd := f.cv2kdFn s.scen.BPR_max_Cv s.scen.D_BPR
      let s2 := { s1 with n_vent_vap := f.ventflow T s.scen.P_BPR s.scen.D_BPR kd }
      { s2 with n_vent := s2.n_vent_vap, xe := 1 }
    else { s with n_vent := 0, xe := 1 }

/-- The vent-relevant dataflow of `ODE.rxn_vent_ode` (lines 185-223 of
`ODE.py`): recompute the equilibrium state through `Update_Conditions` at
the current temperature and mole numbers (warm-started from the step `k-1`
recorded pressure `prevP`), store the snapshots, then run `vent_calc` —
whose decisions therefore see the freshly converged pressure `uc.P`. -/
def rxn_vent_ode_vent (f : VentFns) (solve : SolveFn)
    (props : UCResult → ℚ → PropsSnapshot)
    (T nH2O nH2O2 nO2 prevP : ℚ) (s : ODEState) : ODEState :=
  let uc := solve T nH2O nH2O2 nO2 prevP
  vent_calc f T { s with cpP := uc.P, cpVL := uc.VL, props := props uc T }

/-- The body of one iteration of the `while` loop of `ODE.integrate`
(lines 142-171 of `ODE.py`), after the termination checks have passed:
possibly reset the controller setpoint to `T0` once the reaction time has
elapsed, compute the jacket ramp rate from the step `k-1` recorded reactor
temperature, advance the solver (whose right-hand side is
`rxn_vent_ode_vent`), and append the step to the recorded data. -/
def integrate_step (f : VentFns) (solve : SolveFn)
    (props : UCResult → ℚ → PropsSnapshot) (pid : ℚ → ℚ)
    (T nH2O nH2O2 nO2 prevP prevT : ℚ) (past_rxn_time : Bool)
    (s : ODEState) : ODEState :=
  let s1 := if past_rxn_time then { s with pid_setpoint := s.scen.T0 } else s
  let s2 := { s1 with ramp_rate := pid prevT }
  let s3 := rxn_vent_ode_vent f solve props T nH2O nH2O2 nO2 prevP s2
  { s3 with recorded := s3.recorded ++ [s3.n_vent] }

/-- Concrete configuration for the vent-flow instantiations: rupture disc
disabled, backpressure regulator enabled with a 200 kPa set point. -/
def scen0 : Scen :=
  { VR := 378.541, Ux := 450, AR := 1.5, D := 1, h := 1.5, MAWP := 100000,
    D_RD := 2, D_BPR := 0.5, BPR_max_Cv := 5.5, P_RD := 1000, P_BPR := 200,
    XH2O2 := 0.3, mR := 304, kf := 1, rxn_temp := 110, rxn_time := 6,
    T0 := 25, P0 := 101.325, max_rate := 2, cool_time := 2, Kp := 1, Ki := 0,
    Kd := 0, RD := false, BPR := true, TF_vent := false, flow_regime := .churn,
    Kd_RD := 1, integrator := "lsoda" }

/-- An empty property snapshot. -/
def props0 : PropsSnapshot := ⟨0, 0, 0, 0, 0, 0, 0⟩

/-- A concrete integrator state whose recorded step `k-1` pressure is
100 kPa — below the 200 kPa regulator set point. -/
def state0 : ODEState :=
  { scen := scen0, venting := false, critical_flow := false, n_vent := 0,
    n_vent_vap := 0, xe := 1, TF := false, cpP := 100, cpVL := 50,
    props := props0, ramp_rate := 0, pid_setpoint := 110, recorded := [] }

/-- Concrete numerical callbacks: the vapour vent-flow evaluation returns a
flow of 7 mol/s whenever it is invoked. -/
def fns0 : VentFns :=
  { crit := fun _ _ => false, ventflow := fun _ _ _ _ => 7,
    cv2kdFn := fun _ _ => 1, twoTF := fun _ => false,
    twoNvent := fun _ => 0, twoXe := fun _ => 1 }

/-- A converged equilibrium solver whose pressure at the current step is
250 kPa — above the regulator set point — independent of its warm start. -/
def solve0 : SolveFn := fun _ _ _ _ _ => ⟨250, 50⟩

/-- Property-snapshot callback for the instantiations. -/
def propsFn0 : UCResult → ℚ → PropsSnapshot := fun _ _ => props0

/-! ## ODE.integrate termination logic (lines 145-157, 438-455 of ODE.py) -/

/-- The per-step observables the termination conditions of `ODE.integrate`
read: the current total pressure `self.cp.P` and liquid volume `self.cp.VL`. -/
structure LoopState where
  P : ℚ
  VL : ℚ

/-- The scenario fields the termination conditions read. -/
structure TermConfig where
  RD : Bool
  P_RD : ℚ
  MAWP : ℚ
  deriving DecidableEq, Repr

/-- The termination-condition chain at the top of the `while` loop of
`ODE.integrate`, lines 146-157 of `ODE.py`, in source order:
rupture-disc burst (1), MAWP exceeded (2), vessel emptied (3),
vented below atmospheric while discharging (4); otherwise no break. -/
def termination_check (cfg : TermConfig) (venting : Bool) (s : LoopState) :
    Option ℕ :=
  if cfg.RD = true ∧ venting = false ∧ s.P ≥ cfg.P_RD then some 1
  else if s.P ≥ cfg.MAWP then some 2
  else if s.VL ≤ 0 then some 3
  else if cfg.RD = true ∧ venting = true ∧ s.P < Patmq then some 4
  else none

/-- The `while` loop of `ODE.integrate`, viewed through its termination
behaviour: before every integration step the conditions are checked on the
state recorded so far; the first hit breaks the loop with its code, and a
loop that exhausts the whole mesh ends with `tc = None`.  The list holds the
successive between-step observables. -/
def integrate_termination (cfg : TermConfig) (venting : Bool) :
    List LoopState → Option ℕ
  | [] => none
  | s :: rest =>
    match termination_check cfg venting s with
    | some c => some c
    | none => integrate_termination cfg venting rest

/-- Transcribes `ODE.termination_code`, lines 438-455 of `ODE.py`: maps the stored `tc`
(and, when `tc` is `None`, whether the truncated mesh still ends at `tmax`)
to the report string. -/
def termination_code (tc : Option ℕ) (t_last tmax : ℚ) : String :=
  match tc with
  | some 1 => "Process Finished Successfully (Rupture disc burst)"
  | some 2 =>
    "Process Finished Prematurely (Vessel pressure exceeds maximum allowable working pressure)"
  | some 3 => "Process Finished Prematurely (Vessel has been fully emptied)"
  | some 4 => "Process Finished Successfully (Vessel vented successfully)"
  | none =>
    if t_last = tmax then
      "Process Finished Successfully (Maximum reaction time reached)"
    else "Integration Exited Early (See error code)"
  | some _ => "Unknown error"

/-! ## Property_Lib.py: pure-component correlations -/

/-- Transcribes `Property_Lib.Water.p_L`: liquid water density in kg/L. -/
noncomputable def Water.density (T : ℝ) : ℝ :=
  ((999.83952 + 16.945176 * T + (-7.987040e-3) * T ^ 2 +
    (-46.170461e-6) * T ^ 3 + 105.56302e-9 * T ^ 4 +
    (-280.54253e-12) * T ^ 5) / (1 + 16.897850e-3 * T)) / 1000

/-- Transcribes `Property_Lib.Water.antoine`: water saturation pressure in kPa, with the
Antoine coefficient switch at 99 °C. -/
noncomputable def Water.Psat (T : ℝ) : ℝ :=
  if T > 99 then (10 : ℝ) ^ ((8.14019 - 1810.94 / (244.485 + T)) : ℝ) * (101.325 / 760)
  else (10 : ℝ) ^ ((8.07131 - 1730.63 / (233.426 + T)) : ℝ) * (101.325 / 760)

/-- Transcribes `Property_Lib.Hydrogen_Peroxide.antoine`: peroxide saturation pressure in
kPa (single coefficient set). -/
noncomputable def Hydrogen_Peroxide.Psat (T : ℝ) : ℝ :=
  (10 : ℝ) ^ ((7.96917 - 1886.76 / (220.6 + T)) : ℝ) * (101.325 / 760)

/-- Transcribes `Property_Lib.Hydrogen_Peroxide.p_L`: liquid peroxide density in kg/L
(constant above 100 °C, else the water density plus a cubic correction). -/
noncomputable def Hydrogen_Peroxide.density (T : ℝ) : ℝ :=
  if T ≥ 100 then 1.2456174226244978
  else
    Water.density T +
      (0.39763 + (-2.8732e-3) * T + 3.2488e-5 * T ^ 2 + (-1.6363e-7) * T ^ 3) +
      (0.02206 + 3.5357e-3 * T + (-6.0947e-5) * T ^ 2 + 3.6165e-7 * T ^ 3) ^ 2 +
      (0.05187 + (-1.9414e-3) * T + 3.9061e-5 * T ^ 2 + (-2.5500e-7) * T ^ 3) ^ 3

/-- The four-region coefficient `Ba` of the activity correlation, keyed by
absolute temperature.  `Water.activity` and `Hydrogen_Peroxide.activity`
both define these identical constants; the two classes differ only in how
the coefficients are combined. -/
noncomputable def actBa (T_K : ℝ) : ℝ :=
  if 0 < T_K ∧ T_K ≤ 317.636 then
    -999.883 + (-2499.584 * 8.261924) / (Real.pi * (8.261924 ^ 2 + (T_K - 327.4487) ^ 2))
  else if 317.636 < T_K ∧ T_K ≤ 348.222 then
    ((-999.883 + (-2499.584 * 8.261924) /
        (Real.pi * (8.261924 ^ 2 + (T_K - 327.4487) ^ 2))) +
      (0.1663847 * T_K ^ 2 + (-109.9125) * T_K + 17418.34)) / 2
  else if 348.222 < T_K ∧ T_K ≤ 391.463 then
    (-0.03587408) * T_K ^ 2 + 28.08669 * T_K + (-6110.401)
  else -612.9613

/-- Coefficient `Bb` of the activity correlation. -/
noncomputable def actBb (T_K : ℝ) : ℝ :=
  126.7385 + (-2558.776 * 12.33364) / (Real.pi * (12.33364 ^ 2 + (T_K - 343.105) ^ 2))

/-- Coefficient `Bc` of the activity correlation. -/
noncomputable def actBc (T_K : ℝ) : ℝ :=
  63.18354 + (-149.9278) / (1 + Real.exp (0.4745954 * (T_K - 348.1642)))

/-- Coefficient `Bd` of the activity correlation. -/
noncomputable def actBd (T_K : ℝ) : ℝ :=
  59.42228 + (-199.2644) / (1 + Real.exp (0.8321514 * (T_K - 346.2121)))

/-- Transcribes `Property_Lib.Water.activity`: the water activity coefficient, a function
of temperature and of the water liquid mole fraction, with the
`(1 - xH2O^2)` exponent prefactor. -/
noncomputable def Water.gamma (T xH2O : ℝ) : ℝ :=
  Real.exp (((1 - xH2O ^ 2) / (cc.R * c2k T)) *
    (actBa (c2k T) + actBb (c2k T) * (1 - 4 * xH2O) +
      actBc (c2k T) * (1 - 2 * xH2O) * (1 - 6 * xH2O) +
      actBd (c2k T) * ((1 - 2 * xH2O) ^ 2) * (1 - 8 * xH2O)))

/-- Transcribes `Property_Lib.Hydrogen_Peroxide.activity`: the mirrored peroxide form —
`xH2O^2` prefactor and the `(3-4x)`, `(5-6x)`, `(7-8x)` combination — kept
as a distinct formula, not derived from the water one.  Its argument is the
`x` attribute of the peroxide object (named `xH2O` in the source). -/
noncomputable def Hydrogen_Peroxide.gamma (T xH2O : ℝ) : ℝ :=
  Real.exp ((xH2O ^ 2 / (cc.R * c2k T)) *
    (actBa (c2k T) + actBb (c2k T) * (3 - 4 * xH2O) +
      actBc (c2k T) * (1 - 2 * xH2O) * (5 - 6 * xH2O) +
      actBd (c2k T) * ((1 - 2 * xH2O) ^ 2) * (7 - 8 * xH2O)))

/-! ## VLE.py: the 12-equation equilibrium system -/

/-- The fixed inputs of `VLE.Solvers.VLE`: the attributes `self.T`,
`self.ntotal`, `self.zH2O`, `self.zH2O2`, `self.nO2`, `self.VR` the residual
reads. -/
structure VLEIn where
  T : ℝ
  ntotal : ℝ
  zH2O : ℝ
  zH2O2 : ℝ
  nO2 : ℝ
  VR : ℝ

/-- The twelve unknowns `z[0] .. z[11]` of `VLE.Solvers.VLE`. -/
structure VLEVars where
  xH2O : ℝ
  xH2O2 : ℝ
  yH2O : ℝ
  yH2O2 : ℝ
  yO2 : ℝ
  nL : ℝ
  nG : ℝ
  P : ℝ
  PH2O : ℝ
  PH2O2 : ℝ
  VL : ℝ
  ZO2 : ℝ

/-- A converged solution of `VLE.Solvers.VLE`: all twelve residuals
`F[0] .. F[11]` (lines 41-52 of `VLE.py`) vanish.  The solver constructs
`Water(self.T, P)` and `Hydrogen_Peroxide(self.T, P)` with no equilibrium
object, so their `x` attributes keep the constructor defaults 1 and 0 and
the `gamma` factors of `F[4]`/`F[5]` are `Water.gamma T 1` and
`Hydrogen_Peroxide.gamma T 0`.  `F[11]` is the Redlich-Kwong cubic of
`EOS.compress_solver` at the oxygen reduced coordinates. -/
noncomputable def VLE_converged (inp : VLEIn) (v : VLEVars) : Prop :=
  v.nL * v.xH2O + v.nG * v.yH2O - inp.ntotal * inp.zH2O = 0 ∧
  v.nL * v.xH2O2 + v.nG * v.yH2O2 - inp.ntotal * inp.zH2O2 = 0 ∧
  v.nL + v.nG - inp.ntotal = 0 ∧
  v.PH2O + v.PH2O2 + (v.ZO2 * inp.nO2 * cc.R * c2k inp.T) / (inp.VR - v.VL) - v.P = 0 ∧
  v.PH2O - v.xH2O * Water.Psat inp.T * Water.gamma inp.T 1 = 0 ∧
  v.PH2O2 - v.xH2O2 * Hydrogen_Peroxide.Psat inp.T * Hydrogen_Peroxide.gamma inp.T 0 = 0 ∧
  v.yH2O - v.PH2O / v.P = 0 ∧
  v.yH2O2 - v.PH2O2 / v.P = 0 ∧
  v.yO2 - (v.ZO2 * inp.nO2 * cc.R * c2k inp.T) / ((inp.VR - v.VL) * v.P) = 0 ∧
  v.xH2O + v.xH2O2 - v.yH2O - v.yH2O2 - v.yO2 = 0 ∧
  v.VL - v.nL * ((v.xH2O * cc.MH2O / (Water.density inp.T * 1000)) +
    (v.xH2O2 * cc.MH2O2 / (Hydrogen_Peroxide.density inp.T * 1000))) = 0 ∧
  compress_solver (reduced_tempertaure inp.T cc.TcO2)
    (reduced_pressure v.P cc.PcO2) v.ZO2 = 0

/-- Transcribes `VLE.Equilibrate.equilibrate`, line 86: the vapour volume is assigned as
`self.VG = self.VR - self.VL`. -/
noncomputable def equilibrate_VG (VR VL : ℝ) : ℝ := VR - VL

/-- Transcribes `VLE.Equilibrate.equilibrate`, line 88: the oxygen liquid mole fraction
is assigned as `self.xO2 = 0`. -/
def equilibrate_xO2 : ℝ := 0

/-! ## ERS.flow_twophase (lines 106-136 of ERS.py) -/

/-- The object state `ERS.flow_twophase` reads: the species snapshots
(`y`/`x` mole fractions), the mixture fields `nG`, `nL`, `ntotal`, `P`, `k`
of `self.cp`, the specific volumes and vapour density set by
`rxn_vent_ode`, the entrainment values set by `two_phase`, and the vessel
and rupture-disc geometry of the scenario. -/
structure TPIn where
  yH2O : ℝ
  yH2O2 : ℝ
  yO2 : ℝ
  xH2O : ℝ
  xH2O2 : ℝ
  nG : ℝ
  nL : ℝ
  ntotal : ℝ
  P : ℝ
  k : ℝ
  vL : ℝ
  vG : ℝ
  pG : ℝ
  jgi : ℝ
  Xm : ℝ
  D : ℝ
  D_RD : ℝ
  Kd_RD : ℝ

/-- The average molecular weight `Mw` of the vessel contents computed at the
top of `flow_twophase`. -/
noncomputable def flow_twophase_Mw (i : TPIn) : ℝ :=
  (i.yH2O * cc.MH2O + i.yH2O2 * cc.MH2O2 + i.yO2 * cc.MO2) * (i.nG / i.ntotal) +
    (i.xH2O * cc.MH2O + i.xH2O2 * cc.MH2O2) * (i.nL / i.ntotal)

/-- The vapour mass fraction `X = F_ig + F_vg` of `flow_twophase`. -/
noncomputable def flow_twophase_X (i : TPIn) : ℝ :=
  i.nG * i.yO2 * cc.MO2 / (i.ntotal * flow_twophase_Mw i) +
    i.nG * (i.yH2O * cc.MH2O + i.yH2O2 * cc.MH2O2) / (i.ntotal * flow_twophase_Mw i)

/-- The two-phase mass flux `G_twophase` of `flow_twophase` (the
closed-form homogeneous-equilibrium branch the source actually executes),
with `n = P_discharge / P` and
`vt = (1-X)*vL + X*vG*n**(-1/k)`. -/
noncomputable def flow_twophase_G (i : TPIn) (P_discharge : ℝ) : ℝ :=
  let X := flow_twophase_X i
  let n := P_discharge / i.P
  let vt := (1 - X) * i.vL + X * i.vG * n ^ ((-1 : ℝ) / i.k)
  Real.sqrt ((2 * i.P * 1000 * 1000 / vt ^ 2) *
    ((1 - X) * i.vL * (1 - n) / 1000 + X * i.vG * (i.k / (i.k - 1)) *
      (1 - n ^ ((i.k - 1) / i.k)) / 1000))

/-- The exit quality `self.xe` assigned at lines 132-134 of `ERS.py`:
`(jgi*pG*Aves + Xm*(A_RD*G - jgi*pG*Aves)) / (A_RD*G)` with
`Aves = A_relief(D * 39.3701)` the vessel cross-section and
`A_RD = A_relief(D_RD)` the disc area.  No clamping is applied. -/
noncomputable def flow_twophase_xe (i : TPIn) (P_discharge : ℝ) : ℝ :=
  (i.jgi * i.pG * A_relief (i.D * 39.3701) +
    i.Xm * (A_relief i.D_RD * flow_twophase_G i P_discharge -
      i.jgi * i.pG * A_relief (i.D * 39.3701))) /
  (A_relief i.D_RD * flow_twophase_G i P_discharge)

/-- The molar vent flow `self.n_vent` assigned at line 136 of `ERS.py`. -/
noncomputable def flow_twophase_n_vent (i : TPIn) (P_discharge : ℝ) : ℝ :=
  flow_twophase_G i P_discharge * i.Kd_RD * A_relief i.D_RD * 1000 /
    flow_twophase_Mw i

/-- A family of concrete `flow_twophase` states: all-liquid vessel contents
(`nG = 0`, pure water liquid) at 2 kPa discharging against 1 kPa, vessel
diameter chosen so the vessel cross-section equals the disc area, with the
entrainment values `jgi` and `Xm` left as parameters. -/
noncomputable def tpBase (jgi Xm : ℝ) : TPIn :=
  { yH2O := 0, yH2O2 := 0, yO2 := 0, xH2O := 1, xH2O2 := 0,
    nG := 0, nL := 1, ntotal := 1, P := 2, k := 2,
    vL := 20, vG := 1, pG := 5, jgi := jgi, Xm := Xm,
    D := 1 / 39.3701, D_RD := 1, Kd_RD := 1 }

/-! ## Concrete converged solutions of the VLE system

At `T = 345.25 °C` the oxygen reduced temperature is `618.4/154.6 = 4`
exactly, so `Tr ** 2.5 = 32` and the Redlich-Kwong cubic coefficients are
`A = (0.42748/161600) * P` and `B = (0.08664/20200) * P`.  Choosing the
pressure `wP` below makes `ZO2 = 1` an exact root of the cubic, and the
remaining unknowns are completed in closed form. -/

/-- Temperature of the concrete solutions, °C. -/
noncomputable def wT : ℝ := 345.25

/-- The pressure at which `ZO2 = 1` solves the oxygen cubic at `wT`. -/
noncomputable def wP : ℝ :=
  (0.42748 / 161600 - 0.08664 / 20200) /
    ((0.08664 / 20200) * (0.42748 / 161600 + 0.08664 / 20200))

/-- Liquid water fraction making the partial pressures sum to `wP`. -/
noncomputable def wt : ℝ :=
  (wP - Hydrogen_Peroxide.Psat wT) / (Water.Psat wT - Hydrogen_Peroxide.Psat wT)

/-- The liquid volume consistent with residual `F[10]` at `nL = 2`. -/
noncomputable def wVL : ℝ :=
  2 * ((wt * cc.MH2O / (Water.density wT * 1000)) +
    ((1 - wt) * cc.MH2O2 / (Hydrogen_Peroxide.density wT * 1000)))

/-- A concrete solution vector of the 12-equation system: all-condensable
two-phase split with no oxygen. -/
noncomputable def wv : VLEVars :=
  { xH2O := wt, xH2O2 := 1 - wt,
    yH2O := wt * Water.Psat wT / wP,
    yH2O2 := (1 - wt) * Hydrogen_Peroxide.Psat wT / wP,
    yO2 := 0, nL := 2, nG := 3, P := wP,
    PH2O := wt * Water.Psat wT,
    PH2O2 := (1 - wt) * Hydrogen_Peroxide.Psat wT,
    VL := wVL, ZO2 := 1 }

/-- The inputs under which `wv` is a converged solution. -/
noncomputable def winp : VLEIn :=
  { T := wT, ntotal := 5,
    zH2O := (2 * wt + 3 * (wt * Water.Psat wT / wP)) / 5,
    zH2O2 := (2 * (1 - wt) + 3 * ((1 - wt) * Hydrogen_Peroxide.Psat wT / wP)) / 5,
    nO2 := 0, VR := wVL + 7 }

/-- The oxygen overall mole fraction of the witness inputs
(`zO2 = nO2 / ntotal = 0`). -/
def wzO2 : ℝ := 0

/-- Liquid volume of the second concrete solution (`xH2O = 1/2`). -/
noncomputable def cVL : ℝ :=
  2 * (((1 / 2) * cc.MH2O / (Water.density wT * 1000)) +
    ((1 / 2) * cc.MH2O2 / (Hydrogen_Peroxide.density wT * 1000)))

/-- Oxygen moles closing the pressure balance of the second solution with a
headspace of `VR - VL = 7` L and `ZO2 = 1`. -/
noncomputable def cnO2 : ℝ :=
  (wP - ((1 / 2) * Water.Psat wT + (1 / 2) * Hydrogen_Peroxide.Psat wT)) * 7 /
    (cc.R * c2k wT)

/-- A second concrete solution vector, with liquid composition
`xH2O = xH2O2 = 1/2` — a converged solution whose liquid is not pure, so
the activity coefficient at its composition differs from the constant the
solver actually used. -/
noncomputable def c4v : VLEVars :=
  { xH2O := 1 / 2, xH2O2 := 1 / 2,
    yH2O := (1 / 2) * Water.Psat wT / wP,
    yH2O2 := (1 / 2) * Hydrogen_Peroxide.Psat wT / wP,
    yO2 := (wP - ((1 / 2) * Water.Psat wT + (1 / 2) * Hydrogen_Peroxide.Psat wT)) / wP,
    nL := 2, nG := 3, P := wP,
    PH2O := (1 / 2) * Water.Psat wT,
    PH2O2 := (1 / 2) * Hydrogen_Peroxide.Psat wT,
    VL := cVL, ZO2 := 1 }

/-- The inputs under which `c4v` is a converged solution. -/
noncomputable def c4inp : VLEIn :=
  { T := wT, ntotal := 5,
    zH2O := (2 * (1 / 2) + 3 * ((1 / 2) * Water.Psat wT / wP)) / 5,
    zH2O2 := (2 * (1 / 2) + 3 * ((1 / 2) * Hydrogen_Peroxide.Psat wT / wP)) / 5,
    nO2 := cnO2, VR := cVL + 7 }

/-! ## C1 theorems -/

/-- C1 counterexample: the claim asserts the decomposition rate equals
`A_ar * kf * exp(-Ea / (R * T_kelvin))` with `R` the gas constant and `Ea`
the constant of `Constant_Lib` (10357).  At `T = 25 °C`, `kf = 1` the rate the
code computes, `A_ar * exp(-Ea / 298.15)`, differs from that formula, because
`Kinetics.kinetics` never divides by `R`. -/
theorem C1_kinetics_gas_constant_counterexample :
    Kinetics.rate 25 1 ≠ cc.A_ar * 1 * Real.exp (-cc.Ea / (cc.R * c2k 25)) := by
  unfold Kinetics.rate cc.A_ar cc.Ea cc.R c2k
  intro h
  have h2 : Real.exp (-(10357 : ℝ) / ((25 : ℝ) + 273.15)) =
      Real.exp (-(10357 : ℝ) / ((8.3145 : ℝ) * ((25 : ℝ) + 273.15))) := by
    have h135 : (135000 : ℝ) * 1 ≠ 0 := by norm_num
    exact mul_left_cancel₀ h135 h
  have h3 : (-(10357 : ℝ) / ((25 : ℝ) + 273.15)) =
      (-(10357 : ℝ) / ((8.3145 : ℝ) * ((25 : ℝ) + 273.15))) := Real.exp_eq_exp.mp h2
  norm_num at h3

/-- C1 amended: the rate computed by `Kinetics` is
`A_ar * kf * exp(-Ea / T_kelvin)` with `T_kelvin = T + 273.15` — the stored
constant `Ea = 10357` is used as an activation *temperature* (the physical
activation energy already divided by `R`), so the rate also equals
`A_ar * kf * exp(-(R*Ea) / (R * T_kelvin))`; and the peroxide consumption term
of the mole balance is first order in peroxide moles: with no vent flow the
peroxide derivative is exactly `-(rate * nH2O2)`, and it is linear in
`nH2O2`. -/
theorem C1_kinetics_first_order_amended (T kf nH2O2 yH2O2 xH2O2 xe : ℝ) :
    Kinetics.rate T kf = cc.A_ar * kf * Real.exp (-(cc.R * cc.Ea) / (cc.R * c2k T)) ∧
    rxn_dnH2O2_dt (Kinetics.rate T kf) nH2O2 yH2O2 xH2O2 xe 0 =
      -(Kinetics.rate T kf * nH2O2) ∧
    (∀ a : ℝ, rxn_dnH2O2_dt (Kinetics.rate T kf) (a * nH2O2) yH2O2 xH2O2 xe 0 =
      a * rxn_dnH2O2_dt (Kinetics.rate T kf) nH2O2 yH2O2 xH2O2 xe 0) := by
  refine ⟨?_, ?_, ?_⟩
  · unfold Kinetics.rate
    have hR : (cc.R : ℝ) ≠ 0 := by unfold cc.R; norm_num
    rw [neg_div (cc.R * c2k T) (cc.R * cc.Ea), mul_div_mul_left cc.Ea (c2k T) hR,
      neg_div]
  · unfold rxn_dnH2O2_dt; ring
  · intro a; unfold rxn_dnH2O2_dt; ring

/-! ## C2 theorem -/

/-- C2: every evaluation of `ODE.rxn_vent_ode` fails before producing a
derivative vector: the lookup `VLE.Update_Conditions` raises `AttributeError`
because `VLE.py` defines no such class; and on the rupture-disc venting path
`ODE.vent_calc` would additionally fail at the undefined method `crit_flow`
and at the call of `ERS.ventflow` with four positional arguments against its
two-parameter definition (and at the undefined constant `cc.RD_Kd`), so no
venting-phase step can ever be computed. -/
theorem C2_rxn_vent_ode_always_raises :
    rxn_vent_ode_lookup = .error (.attributeError "Update_Conditions") ∧
    vent_calc_crit_flow_lookup = .error (.attributeError "crit_flow") ∧
    vent_calc_RD_Kd_lookup = .error (.attributeError "RD_Kd") ∧
    rd_ventflow_call_args.length = 4 ∧ ventflow_params.length = 2 ∧
    (∀ a b c d : ℚ, ∀ body,
      pyCall "ventflow" ventflow_params [a, b, c, d] body =
        .error (.typeError "ventflow")) := by
  refine ⟨rfl, rfl, rfl, rfl, rfl, ?_⟩
  intro a b c d body
  rfl

/-! ## C6 theorem -/

/-- C6: termination is evaluated between integration steps with first-hit
semantics and yields exactly one of the codes 1-4 (or none).  The
rupture-disc burst check has priority: with the disc enabled, venting not yet
started and `P ≥ P_RD` the loop breaks with code 1 regardless of the MAWP,
empty-vessel and vented-to-atmosphere conditions; code 2 requires the burst
check to have failed, code 3 additionally `P < MAWP`, code 4 additionally
`0 < VL`.  A loop that hits no condition exhausts the mesh with `tc = None`,
which `termination_code` reports as maximum-reaction-time reached when the
mesh still ends at `tmax` and as the abnormal-exit catch-all otherwise. -/
theorem C6_termination_codes :
    (∀ cfg venting s c, termination_check cfg venting s = some c →
      c = 1 ∨ c = 2 ∨ c = 3 ∨ c = 4) ∧
    (∀ cfg s, cfg.RD = true → cfg.P_RD ≤ s.P →
      termination_check cfg false s = some 1) ∧
    (∀ cfg venting s, ¬(cfg.RD = true ∧ venting = false ∧ cfg.P_RD ≤ s.P) →
      cfg.MAWP ≤ s.P → termination_check cfg venting s = some 2) ∧
    (∀ cfg venting s, ¬(cfg.RD = true ∧ venting = false ∧ cfg.P_RD ≤ s.P) →
      s.P < cfg.MAWP → s.VL ≤ 0 → termination_check cfg venting s = some 3) ∧
    (∀ cfg s, s.P < cfg.MAWP → 0 < s.VL → cfg.RD = true → s.P < Patmq →
      termination_check cfg true s = some 4) ∧
    (∀ cfg venting s rest c, termination_check cfg venting s = some c →
      integrate_termination cfg venting (s :: rest) = some c) ∧
    (∀ cfg venting s rest, termination_check cfg venting s = none →
      integrate_termination cfg venting (s :: rest) =
        integrate_termination cfg venting rest) ∧
    (∀ cfg venting, integrate_termination cfg venting [] = none) ∧
    (∀ tmax : ℚ, termination_code none tmax tmax =
      "Process Finished Successfully (Maximum reaction time reached)") ∧
    (∀ t_last tmax : ℚ, t_last ≠ tmax → termination_code none t_last tmax =
      "Integration Exited Early (See error code)") := by
  refine ⟨?_, ?_, ?_, ?_, ?_, ?_, ?_, ?_, ?_, ?_⟩
  · intro cfg venting s c h
    unfold termination_check at h
    split_ifs at h <;> simp_all
  · intro cfg s hRD hP
    unfold termination_check
    rw [if_pos ⟨hRD, rfl, hP⟩]
  · intro cfg venting s h1 h2
    unfold termination_check
    rw [if_neg h1, if_pos h2]
  · intro cfg venting s h1 h2 h3
    unfold termination_check
    rw [if_neg h1, if_neg (not_le.mpr h2), if_pos h3]
  · intro cfg s h2 h3 hRD h4
    unfold termination_check
    rw [if_neg (by simp), if_neg (not_le.mpr h2), if_neg (not_le.mpr h3),
      if_pos ⟨hRD, rfl, h4⟩]
  · intro cfg venting s rest c h
    simp only [integrate_termination, h]
  · intro cfg venting s rest h
    simp only [integrate_termination, h]
  · intro cfg venting; rfl
  · intro tmax; unfold termination_code; rw [if_pos rfl]
  · intro t_last tmax h; unfold termination_code; rw [if_neg h]

/-- C6 witness: with the rupture disc enabled and not yet venting, a state
whose pressure exceeds both the disc set pressure and the MAWP while the
vessel is empty still terminates with code 1 — the burst check wins — and the
`None` outcomes map to the max-time and early-exit reports. -/
theorem C6_termination_codes_witness :
    termination_check ⟨true, 1000, 1200⟩ false ⟨1500, 0⟩ = some 1 ∧
    integrate_termination ⟨true, 1000, 1200⟩ false [⟨1500, 0⟩] = some 1 ∧
    termination_code none 21600 21600 =
      "Process Finished Successfully (Maximum reaction time reached)" ∧
    termination_code none 300 21600 = "Integration Exited Early (See error code)" := by
  have h1 := C6_termination_codes.2.1 ⟨true, 1000, 1200⟩ ⟨1500, 0⟩ rfl (by norm_num)
  refine ⟨h1, ?_, C6_termination_codes.2.2.2.2.2.2.2.2.1 21600,
    C6_termination_codes.2.2.2.2.2.2.2.2.2 300 21600 (by norm_num)⟩
  exact C6_termination_codes.2.2.2.2.2.1 ⟨true, 1000, 1200⟩ false ⟨1500, 0⟩ [] 1 h1

/-! ## C7 theorem -/

/-- C7: the claim is right about the intended contract but the code cannot
meet it.  Every call of the `compress` method of every species raises
`TypeError` — it passes two positional arguments to the zero-parameter
`RK_EOS.reduced_tempertaure` — so it never returns a compressibility factor
at all, and in particular no input ever produces a `DomainError`: the
repository defines no such error path. -/
theorem C7_compress_always_type_errors :
    (∀ T P : ℚ, Water.compress T P = .error (.typeError "reduced_tempertaure")) ∧
    (∀ T P : ℚ,
      Hydrogen_Peroxide.compress T P = .error (.typeError "reduced_tempertaure")) ∧
    (∀ T P : ℚ, Oxygen.compress T P = .error (.typeError "reduced_tempertaure")) ∧
    (∀ T P : ℚ, ∀ msg, Water.compress T P ≠ .error (.domainError msg)) := by
  refine ⟨fun T P => rfl, fun T P => rfl, fun T P => rfl, fun T P msg h => ?_⟩
  have h2 : Water.compress T P = .error (.typeError "reduced_tempertaure") := rfl
  rw [h2] at h
  exact absurd (Except.error.inj h) (by simp)

/-! ## C8 theorem -/

/-- C8: once the regime residual has been solved for the void fraction
`alpha`, the two-phase decision compares it with the geometric headspace
fraction `alphaves = (VR - VL)/VR`: the discharge is two-phase exactly when
`alphaves < alpha`; at or below `alphaves` the flag stays `false` with no
entrainment values, and above it the flag is `true` with `jgi` and `Xm`
given by the closed forms of the configured regime. -/
theorem C8_two_phase_decision (regime : FlowRegime)
    (jgx Ui alpha pG pL VR VL : ℚ)
    (hres : voidfrac regime jgx Ui alpha = 0) :
    ((two_phase_decision regime alpha Ui pG pL VR VL).TF = true ↔
      alphaves VR VL < alpha) ∧
    (alpha ≤ alphaves VR VL →
      two_phase_decision regime alpha Ui pG pL VR VL = ⟨false, none, none⟩) ∧
    (alphaves VR VL < alpha →
      (two_phase_decision regime alpha Ui pG pL VR VL).jgi =
        some (match regime with
          | .churn => 2 * alphaves VR VL * Ui / (1 - 1.5 * alphaves VR VL)
          | .bubbly => alphaves VR VL * (1 - alphaves VR VL) ^ 2 * Ui /
              ((1 - alphaves VR VL ^ 3) * (1 - 1.5 * alphaves VR VL))) ∧
      (two_phase_decision regime alpha Ui pG pL VR VL).Xm =
        some (match regime with
          | .churn => (2 * alphaves VR VL / (1 + 1.5 * alphaves VR VL)) * pG /
              ((2 * alphaves VR VL / (1 + 1.5 * alphaves VR VL)) * pG +
                (1 - 2 * alphaves VR VL / (1 + 1.5 * alphaves VR VL)) * pL)
          | .bubbly => alphaves VR VL * pG /
              (alphaves VR VL * pG + (1 - alphaves VR VL) * pL))) := by
  unfold two_phase_decision alphaves
  refine ⟨?_, ?_, ?_⟩
  · constructor
    · intro h
      by_contra hlt
      rw [if_pos (not_lt.mp hlt)] at h
      exact Bool.noConfusion h
    · intro h
      rw [if_neg (not_le.mpr h)]
  · intro h
    rw [if_pos h]
  · intro h
    rw [if_neg (not_le.mpr h)]
    cases regime <;> exact ⟨rfl, rfl⟩

/-- C8 witness: in the churn-turbulent regime with `jgx = 4`, `Ui = 7` the
residual vanishes at `alpha = 1/2`; with `VR = 4`, `VL = 3` the headspace
fraction is `1/4 < 1/2`, so two-phase venting activates with
`jgi = 28/5` and, at `pG = 1`, `pL = 10`, `Xm = 2/37`. -/
theorem C8_two_phase_decision_witness :
    voidfrac .churn 4 7 (1/2) = 0 ∧
    (two_phase_decision .churn (1/2) 7 1 10 4 3).TF = true ∧
    (two_phase_decision .churn (1/2) 7 1 10 4 3).jgi = some (28/5) ∧
    (two_phase_decision .churn (1/2) 7 1 10 4 3).Xm = some (2/37) := by
  have hres : voidfrac .churn 4 7 (1/2) = 0 := by norm_num [voidfrac]
  have h := C8_two_phase_decision .churn 4 7 (1/2) 1 10 4 3 hres
  have hlt : alphaves 4 3 < 1/2 := by norm_num [alphaves]
  have h3 := h.2.2 hlt
  refine ⟨hres, h.1.mpr hlt, ?_, ?_⟩
  · rw [h3.1]; norm_num [alphaves]
  · rw [h3.2]; norm_num [alphaves]

/-! ## C9 theorems -/

/-- C9 counterexample: a step whose recorded step `k-1` pressure is 100 kPa
(below the 200 kPa regulator set point, so no venting would occur at that
pressure) but whose converged step-`k` equilibrium pressure is 250 kPa.  The
right-hand-side evaluation vents at 7 mol/s: the vent-flow decision follows
the pressure converged within the current evaluation, not the recorded
step `k-1` pressure, refuting the claimed one-step lag. -/
theorem C9_vent_pressure_lag_counterexample :
    state0.cpP = 100 ∧ (solve0 110 100 50 1 100).P = 250 ∧
    (rxn_vent_ode_vent fns0 solve0 propsFn0 110 100 50 1 100 state0).n_vent = 7 ∧
    (vent_calc fns0 110 state0).n_vent = 0 := by
  refine ⟨rfl, rfl, ?_, ?_⟩ <;> decide

/-- C9 amended: the vent flow computed inside the step-`k` right-hand-side
evaluation is a function of the equilibrium state the step-`k`
`Update_Conditions` call converges to; the step `k-1` recorded pressure
enters only as the warm start of that solve, so whenever the solve is
warm-start independent (a converged solver), changing the recorded pressure
does not change the evaluation at all. -/
theorem C9_vent_pressure_lag_amended (f : VentFns) (solve : SolveFn)
    (props : UCResult → ℚ → PropsSnapshot)
    (T nH2O nH2O2 nO2 p1 p2 : ℚ) (s : ODEState)
    (hconv : solve T nH2O nH2O2 nO2 p1 = solve T nH2O nH2O2 nO2 p2) :
    rxn_vent_ode_vent f solve props T nH2O nH2O2 nO2 p1 s =
      rxn_vent_ode_vent f solve props T nH2O nH2O2 nO2 p2 s := by
  unfold rxn_vent_ode_vent
  rw [hconv]

/-- C9 witness: the amended statement at the concrete solver above, with
recorded pressures 100 and 999. -/
theorem C9_vent_pressure_lag_witness :
    solve0 110 100 50 1 100 = solve0 110 100 50 1 999 ∧
    rxn_vent_ode_vent fns0 solve0 propsFn0 110 100 50 1 100 state0 =
      rxn_vent_ode_vent fns0 solve0 propsFn0 110 100 50 1 999 state0 :=
  ⟨rfl, C9_vent_pressure_lag_amended fns0 solve0 propsFn0 110 100 50 1 100 999
    state0 rfl⟩

/-! ## C10 theorem -/

/-- C10: the configuration object is never written during integration.  Every
assignment in `ODE.vent_calc`, in the vent-relevant dataflow of
`ODE.rxn_vent_ode` and in the body of one `ODE.integrate` loop iteration
targets integrator-owned fields, per-evaluation property snapshots, the
controller, or the recorded data arrays; the configuration component of the
state is equal before and after each of the three calls, for every choice of
numerical callbacks. -/
theorem C10_config_frame (f : VentFns) (solve : SolveFn)
    (props : UCResult → ℚ → PropsSnapshot) (pid : ℚ → ℚ)
    (T nH2O nH2O2 nO2 prevP prevT : ℚ) (past_rxn_time : Bool) (s : ODEState) :
    (vent_calc f T s).scen = s.scen ∧
    (rxn_vent_ode_vent f solve props T nH2O nH2O2 nO2 prevP s).scen = s.scen ∧
    (integrate_step f solve props pid T nH2O nH2O2 nO2 prevP prevT
      past_rxn_time s).scen = s.scen := by
  have hv : ∀ s' : ODEState, (vent_calc f T s').scen = s'.scen := by
    intro s'
    unfold vent_calc
    split_ifs <;> try rfl
    all_goals dsimp only
    all_goals split <;> rfl
  refine ⟨hv s, ?_, ?_⟩
  · unfold rxn_vent_ode_vent
    rw [hv]
  · unfold integrate_step rxn_vent_ode_vent
    cases past_rxn_time <;> simp [hv]

/-! ## C3 theorem -/

/-- C3: at every converged solution of the 12-equation VLE system (with the
overall mole fractions normalized as `Initial_Conditions` builds them:
`ntotal * zO2 = nO2` and `zH2O + zH2O2 + zO2 = 1`, and a nonzero converged
pressure), the species mole balances close to better than `1e-6`:
`|nL*x_i + nG*y_i - ntotal*z_i| < 1e-6` for water, peroxide and oxygen
(whose liquid fraction `equilibrate` sets to 0), and the liquid and vapour
volumes sum exactly to the configured vessel volume, since `equilibrate`
assigns `VG = VR - VL`. -/
theorem C3_vle_balances (inp : VLEIn) (v : VLEVars) (zO2 : ℝ)
    (hconv : VLE_converged inp v) (hP : v.P ≠ 0)
    (hzO2 : inp.ntotal * zO2 = inp.nO2)
    (hzsum : inp.zH2O + inp.zH2O2 + zO2 = 1) :
    |v.nL * v.xH2O + v.nG * v.yH2O - inp.ntotal * inp.zH2O| < 1e-6 ∧
    |v.nL * v.xH2O2 + v.nG * v.yH2O2 - inp.ntotal * inp.zH2O2| < 1e-6 ∧
    |v.nL * equilibrate_xO2 + v.nG * v.yO2 - inp.ntotal * zO2| < 1e-6 ∧
    v.VL + equilibrate_VG inp.VR v.VL = inp.VR := by
  obtain ⟨h0, h1, h2, h3, h4, h5, h6, h7, h8, h9, h10, h11⟩ := hconv
  refine ⟨by rw [h0]; norm_num, by rw [h1]; norm_num, ?_,
    by unfold equilibrate_VG; ring⟩
  have hy : v.yH2O + v.yH2O2 + v.yO2 = 1 := by
    have e6 : v.yH2O = v.PH2O / v.P := by linarith
    have e7 : v.yH2O2 = v.PH2O2 / v.P := by linarith
    have e8 : v.yO2 =
        (v.ZO2 * inp.nO2 * cc.R * c2k inp.T) / (inp.VR - v.VL) / v.P := by
      rw [div_div]; linarith
    have e3 : v.PH2O + v.PH2O2 +
        (v.ZO2 * inp.nO2 * cc.R * c2k inp.T) / (inp.VR - v.VL) = v.P := by
      linarith
    rw [e6, e7, e8, div_add_div_same, div_add_div_same, e3, div_self hP]
  have hx : v.xH2O + v.xH2O2 = 1 := by linarith
  have hng : v.nG * v.yO2 = inp.nO2 := by
    linear_combination -h0 - h1 + h2 + v.nL * hx + v.nG * hy -
      inp.ntotal * hzsum + hzO2
  have hzero : v.nL * equilibrate_xO2 + v.nG * v.yO2 - inp.ntotal * zO2 = 0 := by
    unfold equilibrate_xO2
    linear_combination hng - hzO2
  rw [hzero]
  norm_num

/-! ### Facts about the concrete solutions -/

/-- The real power `4 ** 2.5` equals 32. -/
theorem rpow_four_two_half : (4 : ℝ) ^ (2.5 : ℝ) = 32 := by
  have hquar : (4 : ℝ) = (2 : ℝ) ^ ((2 : ℕ) : ℝ) := by
    rw [Real.rpow_natCast]; norm_num
  rw [hquar, ← Real.rpow_mul (by norm_num : (0 : ℝ) ≤ 2)]
  rw [show ((2 : ℕ) : ℝ) * 2.5 = ((5 : ℕ) : ℝ) by norm_num]
  rw [Real.rpow_natCast]
  norm_num

/-- The water saturation pressure at `wT` is positive. -/
theorem wPsat1_pos : 0 < Water.Psat wT := by
  unfold Water.Psat wT
  rw [if_pos (by norm_num : (345.25 : ℝ) > 99)]
  exact mul_pos (Real.rpow_pos_of_pos (by norm_num) _) (by norm_num)

/-- The peroxide saturation pressure at `wT` is positive. -/
theorem wPsat2_pos : 0 < Hydrogen_Peroxide.Psat wT := by
  unfold Hydrogen_Peroxide.Psat wT
  exact mul_pos (Real.rpow_pos_of_pos (by norm_num) _) (by norm_num)

/-- At `wT` the peroxide saturation pressure is below the water one (their
Antoine exponents compare as rationals and `10 ^ ·` is strictly monotone). -/
theorem wPsat2_lt_wPsat1 : Hydrogen_Peroxide.Psat wT < Water.Psat wT := by
  unfold Water.Psat Hydrogen_Peroxide.Psat wT
  rw [if_pos (by norm_num : (345.25 : ℝ) > 99)]
  refine mul_lt_mul_of_pos_right ?_ (by norm_num)
  exact Real.rpow_lt_rpow_of_exponent_lt (by norm_num) (by norm_num)

/-- The Antoine pressures at `wT` differ. -/
theorem wPsat_sub_ne : Water.Psat wT - Hydrogen_Peroxide.Psat wT ≠ 0 :=
  sub_ne_zero.mpr (ne_of_gt wPsat2_lt_wPsat1)

/-- The pressure of the concrete solutions is nonzero. -/
theorem wP_ne : wP ≠ 0 := by unfold wP; norm_num

/-- The defining property of `wt`: the partial pressures sum to `wP`. -/
theorem wkey : wt * Water.Psat wT + (1 - wt) * Hydrogen_Peroxide.Psat wT = wP := by
  unfold wt
  field_simp [wPsat_sub_ne]
  ring

/-- The water activity coefficient at liquid fraction 1 is 1: the exponent
prefactor `1 - xH2O^2` vanishes. -/
theorem Water.gamma_one (T : ℝ) : Water.gamma T 1 = 1 := by
  unfold Water.gamma
  norm_num

/-- The peroxide activity coefficient at argument 0 is 1: the exponent
prefactor `xH2O^2` vanishes. -/
theorem Hydrogen_Peroxide.gamma_zero (T : ℝ) : Hydrogen_Peroxide.gamma T 0 = 1 := by
  unfold Hydrogen_Peroxide.gamma
  norm_num

/-- The value `ZO2 = 1` solves the oxygen Redlich-Kwong cubic at `(wT, wP)`. -/
theorem compress_at_wP :
    compress_solver (reduced_tempertaure wT cc.TcO2)
      (reduced_pressure wP cc.PcO2) 1 = 0 := by
  unfold compress_solver reduced_tempertaure reduced_pressure cc.TcO2 cc.PcO2 wT c2k
  rw [show (345.25 : ℝ) + 273.15 = 618.4 by norm_num,
    show (618.4 : ℝ) / 154.6 = 4 by norm_num, rpow_four_two_half]
  unfold wP
  norm_num

/-- The vector `wv` is a converged solution of the 12-equation system at `winp`. -/
theorem wv_conv : VLE_converged winp wv := by
  unfold VLE_converged winp wv
  dsimp only
  have hsum : wt * Water.Psat wT / wP + (1 - wt) * Hydrogen_Peroxide.Psat wT / wP = 1 := by
    rw [div_add_div_same, wkey, div_self wP_ne]
  refine ⟨by ring, by ring, by norm_num, ?_, ?_, ?_, by ring, by ring, ?_, ?_, ?_, ?_⟩
  · rw [show (1 : ℝ) * 0 * cc.R * c2k wT = 0 by ring, zero_div]
    linear_combination wkey
  · rw [Water.gamma_one]; ring
  · rw [Hydrogen_Peroxide.gamma_zero]; ring
  · rw [show (1 : ℝ) * 0 * cc.R * c2k wT = 0 by ring, zero_div]
    norm_num
  · linarith
  · unfold wVL; ring
  · exact compress_at_wP

/-- C3 witness: the concrete converged solution `wv` satisfies every
hypothesis and the balance conclusions. -/
theorem C3_vle_balances_witness :
    VLE_converged winp wv ∧ wv.P ≠ 0 ∧ winp.ntotal * wzO2 = winp.nO2 ∧
    winp.zH2O + winp.zH2O2 + wzO2 = 1 ∧
    (|wv.nL * wv.xH2O + wv.nG * wv.yH2O - winp.ntotal * winp.zH2O| < 1e-6 ∧
     |wv.nL * wv.xH2O2 + wv.nG * wv.yH2O2 - winp.ntotal * winp.zH2O2| < 1e-6 ∧
     |wv.nL * equilibrate_xO2 + wv.nG * wv.yO2 - winp.ntotal * wzO2| < 1e-6 ∧
     wv.VL + equilibrate_VG winp.VR wv.VL = winp.VR) := by
  have hP : wv.P ≠ 0 := wP_ne
  have hz1 : winp.ntotal * wzO2 = winp.nO2 := by
    unfold winp wzO2
    norm_num
  have hz2 : winp.zH2O + winp.zH2O2 + wzO2 = 1 := by
    unfold winp wzO2
    dsimp only
    have hsum : wt * Water.Psat wT / wP + (1 - wt) * Hydrogen_Peroxide.Psat wT / wP = 1 := by
      rw [div_add_div_same, wkey, div_self wP_ne]
    linear_combination (3 / 5 : ℝ) * hsum
  exact ⟨wv_conv, hP, hz1, hz2,
    C3_vle_balances winp wv wzO2 wv_conv hP hz1 hz2⟩

/-! ### C4: Raoult's law and the activity coefficient actually used -/

/-- The product `cc.R * c2k wT` is nonzero. -/
theorem wRT_ne : cc.R * c2k wT ≠ 0 := by
  unfold cc.R c2k wT
  norm_num

/-- The `Bb` coefficient of the activity correlation is positive at
`T_K = 618.4`: the `π`-denominated correction is smaller than 1 in
magnitude. -/
theorem actBb_pos_618 : 0 < actBb 618.4 := by
  unfold actBb
  have hpi : (3 : ℝ) < Real.pi := Real.pi_gt_three
  have hsq : (75939 : ℝ) < 12.33364 ^ 2 + (618.4 - 343.105) ^ 2 := by norm_num
  have hd : (227817 : ℝ) < Real.pi * (12.33364 ^ 2 + (618.4 - 343.105) ^ 2) := by
    nlinarith
  have hd0 : (0 : ℝ) < Real.pi * (12.33364 ^ 2 + (618.4 - 343.105) ^ 2) := by
    linarith
  have hfrac : (2558.776 * 12.33364) /
      (Real.pi * (12.33364 ^ 2 + (618.4 - 343.105) ^ 2)) < 1 := by
    rw [div_lt_one hd0]
    nlinarith
  have hneg : (-2558.776 * 12.33364) /
      (Real.pi * (12.33364 ^ 2 + (618.4 - 343.105) ^ 2)) =
      -((2558.776 * 12.33364) /
        (Real.pi * (12.33364 ^ 2 + (618.4 - 343.105) ^ 2))) := by
    ring
  rw [hneg]
  linarith

/-- At `T_K = 618.4` (above the last activity breakpoint 391.463 K) the `Ba`
coefficient takes the asymptotic constant branch. -/
theorem actBa_at_618 : actBa 618.4 = -612.9613 := by
  unfold actBa
  rw [if_neg (by norm_num), if_neg (by norm_num), if_neg (by norm_num)]

/-- The water activity coefficient at `wT` and liquid fraction `1/2` is
strictly below 1: at `x = 1/2` the exponent reduces to a positive prefactor
times `Ba - Bb < 0`. -/
theorem waterGamma_half_lt_one : Water.gamma wT (1 / 2) < 1 := by
  unfold Water.gamma wT c2k
  rw [show (345.25 : ℝ) + 273.15 = 618.4 by norm_num]
  have hBb := actBb_pos_618
  have harg : ((1 - (1 / 2 : ℝ) ^ 2) / (cc.R * 618.4)) *
      (actBa 618.4 + actBb 618.4 * (1 - 4 * (1 / 2)) +
        actBc 618.4 * (1 - 2 * (1 / 2)) * (1 - 6 * (1 / 2)) +
        actBd 618.4 * ((1 - 2 * (1 / 2)) ^ 2) * (1 - 8 * (1 / 2))) < 0 := by
    have heq : ((1 - (1 / 2 : ℝ) ^ 2) / (cc.R * 618.4)) *
        (actBa 618.4 + actBb 618.4 * (1 - 4 * (1 / 2)) +
          actBc 618.4 * (1 - 2 * (1 / 2)) * (1 - 6 * (1 / 2)) +
          actBd 618.4 * ((1 - 2 * (1 / 2)) ^ 2) * (1 - 8 * (1 / 2))) =
        ((3 / 4 : ℝ) / (cc.R * 618.4)) * (actBa 618.4 - actBb 618.4) := by
      ring
    rw [heq, actBa_at_618]
    have hpre : (0 : ℝ) < (3 / 4 : ℝ) / (cc.R * 618.4) := by
      unfold cc.R
      norm_num
    exact mul_neg_of_pos_of_neg hpre (by linarith)
  calc Real.exp (((1 - (1 / 2 : ℝ) ^ 2) / (cc.R * 618.4)) *
      (actBa 618.4 + actBb 618.4 * (1 - 4 * (1 / 2)) +
        actBc 618.4 * (1 - 2 * (1 / 2)) * (1 - 6 * (1 / 2)) +
        actBd 618.4 * ((1 - 2 * (1 / 2)) ^ 2) * (1 - 8 * (1 / 2))))
      < Real.exp 0 := Real.exp_lt_exp.mpr harg
    _ = 1 := Real.exp_zero

/-- The vector `c4v` is a converged solution of the 12-equation system at `c4inp`. -/
theorem c4v_conv : VLE_converged c4inp c4v := by
  unfold VLE_converged c4inp c4v
  dsimp only
  refine ⟨by ring, by ring, by norm_num, ?_, ?_, ?_, by ring, by ring, ?_, ?_, ?_, ?_⟩
  · rw [show (cVL + 7 - cVL : ℝ) = 7 by ring]
    unfold cnO2
    field_simp [wRT_ne]
    ring
  · rw [Water.gamma_one]; ring
  · rw [Hydrogen_Peroxide.gamma_zero]; ring
  · rw [show (cVL + 7 - cVL : ℝ) = 7 by ring]
    unfold cnO2
    field_simp [wRT_ne, wP_ne]
    ring
  · field_simp [wP_ne]
    ring
  · unfold cVL; ring
  · exact compress_at_wP

/-- C4 counterexample: `c4v` is a converged solution whose liquid water
fraction is `1/2`, yet its water partial pressure does not satisfy
`PH2O = xH2O * gammaH2O(T, xH2O) * PsatH2O(T)` with the activity coefficient
evaluated at the converged composition — the solver used the constant
activity from the default composition instead. -/
theorem C4_raoult_counterexample :
    VLE_converged c4inp c4v ∧
    c4v.PH2O ≠ c4v.xH2O * Water.gamma c4inp.T c4v.xH2O * Water.Psat c4inp.T := by
  refine ⟨c4v_conv, ?_⟩
  show (1 / 2 : ℝ) * Water.Psat wT ≠
    (1 / 2 : ℝ) * Water.gamma wT (1 / 2) * Water.Psat wT
  intro h
  have hg := waterGamma_half_lt_one
  have hs := wPsat1_pos
  nlinarith [mul_pos hs (sub_pos.mpr hg)]

/-- C4 amended: at every converged VLE solution the partial pressures obey
Raoult's law with the activity coefficients the solver actually uses — those
of the constructor-default compositions (`x = 1` for water, `x = 0` for
peroxide), which both equal the constant 1 because their exponent prefactors
`1 - x^2` and `x^2` vanish.  Hence `PH2O = xH2O * PsatH2O(T)` and
`PH2O2 = xH2O2 * PsatH2O2(T)` exactly. -/
theorem C4_raoult_amended (inp : VLEIn) (v : VLEVars)
    (hconv : VLE_converged inp v) :
    v.PH2O = v.xH2O * Water.Psat inp.T * Water.gamma inp.T 1 ∧
    Water.gamma inp.T 1 = 1 ∧
    v.PH2O = v.xH2O * Water.Psat inp.T ∧
    v.PH2O2 = v.xH2O2 * Hydrogen_Peroxide.Psat inp.T *
      Hydrogen_Peroxide.gamma inp.T 0 ∧
    Hydrogen_Peroxide.gamma inp.T 0 = 1 ∧
    v.PH2O2 = v.xH2O2 * Hydrogen_Peroxide.Psat inp.T := by
  obtain ⟨h0, h1, h2, h3, h4, h5, h6, h7, h8, h9, h10, h11⟩ := hconv
  have g1 := Water.gamma_one inp.T
  have g2 := Hydrogen_Peroxide.gamma_zero inp.T
  rw [g1] at h4
  rw [g2] at h5
  refine ⟨?_, g1, by linear_combination h4, ?_, g2, by linear_combination h5⟩
  · rw [g1]; linear_combination h4
  · rw [g2]; linear_combination h5

/-- C4 amended witness: the concrete converged solution `wv` satisfies plain
Raoult's law with unit activity coefficients. -/
theorem C4_raoult_amended_witness :
    VLE_converged winp wv ∧
    wv.PH2O = wv.xH2O * Water.Psat winp.T ∧
    wv.PH2O2 = wv.xH2O2 * Hydrogen_Peroxide.Psat winp.T :=
  ⟨wv_conv, (C4_raoult_amended winp wv wv_conv).2.2.1,
    (C4_raoult_amended winp wv wv_conv).2.2.2.2.2⟩

/-! ### C5: the two-phase exit quality -/

/-- The orifice-area conversion is positive for a nonzero diameter. -/
theorem A_relief_one_pos : 0 < A_relief 1 := by
  unfold A_relief
  positivity

/-- With an all-liquid vessel (`nG = 0`) the vapour mass fraction `X` of
`flow_twophase` vanishes. -/
theorem tpX_eval (j m : ℝ) : flow_twophase_X (tpBase j m) = 0 := by
  unfold flow_twophase_X flow_twophase_Mw tpBase
  norm_num

/-- At the concrete family `tpBase` the two-phase mass flux evaluates to
`sqrt 100 = 10` (the flux does not depend on `jgi`, `Xm`). -/
theorem tpG_eval (j m : ℝ) : flow_twophase_G (tpBase j m) 1 = 10 := by
  unfold flow_twophase_G
  rw [tpX_eval j m]
  unfold tpBase
  norm_num
  rw [show (100 : ℝ) = 10 ^ 2 by norm_num]
  exact Real.sqrt_sq (by norm_num)

/-- C5 counterexample: at a concrete input (entrainment flux times vessel
area exceeding the disc discharge capacity, `Xm = 0`) the exit quality
`flow_twophase` computes is 2 — outside `[0, 1]`; the code applies no
clamp. -/
theorem C5_xe_clamp_counterexample :
    flow_twophase_xe (tpBase 4 0) 1 = 2 ∧ 1 < flow_twophase_xe (tpBase 4 0) 1 := by
  have hG := tpG_eval 4 0
  have hA : A_relief 1 ≠ 0 := A_relief_one_pos.ne'
  have hxe : flow_twophase_xe (tpBase 4 0) 1 = 2 := by
    unfold flow_twophase_xe
    rw [hG]
    unfold tpBase
    rw [show ((1 : ℝ) / 39.3701) * 39.3701 = 1 by norm_num]
    field_simp
    ring
  exact ⟨hxe, by rw [hxe]; norm_num⟩

/-- C5 amended: the exit quality is the unclamped convex-type combination
`Xm + (1 - Xm) * (jgi*pG*Aves) / (A_RD*G)`; it lies in `[0, 1]` exactly
when `Xm` does and the entrained flux `jgi*pG*Aves` does not exceed the
device-exit capacity `A_RD*G` — the code never clamps it, so outside those
conditions it can leave `[0, 1]`. -/
theorem C5_xe_amended (i : TPIn) (Pd : ℝ)
    (hb : A_relief i.D_RD * flow_twophase_G i Pd ≠ 0) :
    flow_twophase_xe i Pd = i.Xm + (1 - i.Xm) *
      (i.jgi * i.pG * A_relief (i.D * 39.3701)) /
      (A_relief i.D_RD * flow_twophase_G i Pd) ∧
    (0 ≤ i.Xm → i.Xm ≤ 1 →
      0 ≤ i.jgi * i.pG * A_relief (i.D * 39.3701) →
      i.jgi * i.pG * A_relief (i.D * 39.3701) ≤
        A_relief i.D_RD * flow_twophase_G i Pd →
      0 ≤ flow_twophase_xe i Pd ∧ flow_twophase_xe i Pd ≤ 1) := by
  constructor
  · unfold flow_twophase_xe
    field_simp
    ring
  · intro h1 h2 h3 h4
    have hb_pos : 0 < A_relief i.D_RD * flow_twophase_G i Pd :=
      lt_of_le_of_ne (le_trans h3 h4) (Ne.symm hb)
    unfold flow_twophase_xe
    constructor
    · apply div_nonneg _ hb_pos.le
      nlinarith
    · rw [div_le_one hb_pos]
      nlinarith

/-- C5 witness: with a smaller entrainment flux the hypotheses of the
amended statement hold and the exit quality `1/2` indeed lies in `[0,1]`. -/
theorem C5_xe_amended_witness :
    A_relief (tpBase 1 0).D_RD * flow_twophase_G (tpBase 1 0) 1 ≠ 0 ∧
    0 ≤ (tpBase 1 0).Xm ∧ (tpBase 1 0).Xm ≤ 1 ∧
    0 ≤ (tpBase 1 0).jgi * (tpBase 1 0).pG * A_relief ((tpBase 1 0).D * 39.3701) ∧
    (tpBase 1 0).jgi * (tpBase 1 0).pG * A_relief ((tpBase 1 0).D * 39.3701) ≤
      A_relief (tpBase 1 0).D_RD * flow_twophase_G (tpBase 1 0) 1 ∧
    0 ≤ flow_twophase_xe (tpBase 1 0) 1 ∧ flow_twophase_xe (tpBase 1 0) 1 ≤ 1 := by
  have hG := tpG_eval 1 0
  have hApos := A_relief_one_pos
  have hAv : A_relief ((tpBase 1 0).D * 39.3701) = A_relief 1 := by
    rw [show ((tpBase 1 0).D * 39.3701 : ℝ) = 1 by unfold tpBase; norm_num]
  have hArd : A_relief (tpBase 1 0).D_RD = A_relief 1 := by
    rw [show ((tpBase 1 0).D_RD : ℝ) = 1 by unfold tpBase; norm_num]
  have hb : A_relief (tpBase 1 0).D_RD * flow_twophase_G (tpBase 1 0) 1 ≠ 0 := by
    rw [hG, hArd]
    exact (mul_pos hApos (by norm_num)).ne'
  have h1 : (0 : ℝ) ≤ (tpBase 1 0).Xm := by unfold tpBase; norm_num
  have h2 : (tpBase 1 0).Xm ≤ 1 := by unfold tpBase; norm_num
  have h3 : 0 ≤ (tpBase 1 0).jgi * (tpBase 1 0).pG *
      A_relief ((tpBase 1 0).D * 39.3701) := by
    rw [hAv, show ((tpBase 1 0).jgi : ℝ) = 1 by unfold tpBase; norm_num,
      show ((tpBase 1 0).pG : ℝ) = 5 by unfold tpBase; norm_num]
    nlinarith
  have h4 : (tpBase 1 0).jgi * (tpBase 1 0).pG *
      A_relief ((tpBase 1 0).D * 39.3701) ≤
      A_relief (tpBase 1 0).D_RD * flow_twophase_G (tpBase 1 0) 1 := by
    rw [hAv, hArd, hG, show ((tpBase 1 0).jgi : ℝ) = 1 by unfold tpBase; norm_num,
      show ((tpBase 1 0).pG : ℝ) = 5 by unfold tpBase; norm_num]
    nlinarith
  exact ⟨hb, h1, h2, h3, h4, (C5_xe_amended (tpBase 1 0) 1 hb).2 h1 h2 h3 h4⟩

end ERSVent
